import Mathlib

/-!
# Verification of the Chirpless presence relay server (`src/server.js`)

Shallow embedding of the presence server's core: the in-memory room
registry (`rooms : Map<string, Set<string>>`), the durable presence store
(Mongo collection, modelled as an upsert table behind a fault flag), the
per-socket session state (`ws._room`, `ws._clientId`, `ws.isAlive`,
`readyState`), the message handler (`ws.on('message', ...)` dispatch on
`data.type`), the close handler (`ws.on('close', ...)`), and the liveness
sweeper tick.

JavaScript dynamic values are modelled as follows: every inbound JSON
field is an `Option String` (absent = `none`), JS truthiness of a string
field is `some s` with `s ≠ ""`, and the `a || b` fallback idiom is
`jsOr`.  A `Set` is a duplicate-free `List String` (insertion preserves
the no-duplicate property), `Map`s are association lists.  Socket sends
are captured as an output list of `(socket id, message)` pairs.
-/

namespace Presence

/-- JS truthiness of a string-valued (or absent) field: `undefined` and
`""` are falsy, every other string is truthy. -/
def jstruthy : Option String → Bool
  | none => false
  | some s => s ≠ ""

/-- The JS `a || b` fallback for string-valued fields. -/
def jsOr (a b : Option String) : Option String :=
  if jstruthy a then a else b

/-- The JS `a || d` with a definite default, as in `data.message || ''`. -/
def jsOrD (a : Option String) (d : String) : String :=
  (jsOr a (some d)).getD d

/-- The room registry: `const rooms = new Map()`, room name to member
set (`Set` of clientIds, kept as a duplicate-free list). -/
abbrev Rooms := List (String × List String)

/-- `rooms.get(room) || new Set()`: the member set of a room, empty if
the room is absent from the map. -/
def getRoom (rooms : Rooms) (r : String) : List String :=
  match rooms.find? (fun p => p.1 == r) with
  | some p => p.2
  | none => []

/-- `rooms.has(room)`. -/
def hasRoom (rooms : Rooms) (r : String) : Bool :=
  (rooms.find? (fun p => p.1 == r)).isSome

/-- `function ensureRoom(room) { if (!rooms.has(room)) rooms.set(room, new Set()); return rooms.get(room); }` -/
def ensureRoom (rooms : Rooms) (r : String) : Rooms :=
  if hasRoom rooms r then rooms else rooms ++ [(r, [])]

/-- `set.add(clientId)`: insert, no-op if already present. -/
def setAdd (s : List String) (c : String) : List String :=
  if c ∈ s then s else s ++ [c]

/-- `set.delete(clientId)`: remove, no-op if absent. -/
def setDelete (s : List String) (c : String) : List String :=
  s.filter (fun x => x ≠ c)

/-- Apply a function to the member set stored under room `r`. -/
def updateRoom (rooms : Rooms) (r : String) (f : List String → List String) : Rooms :=
  rooms.map (fun p => if p.1 == r then (p.1, f p.2) else p)

/-- The `join` handler's registry mutation:
`const set = ensureRoom(data.room); set.add(data.clientId);`. -/
def addMember (rooms : Rooms) (r c : String) : Rooms :=
  updateRoom (ensureRoom rooms r) r (fun s => setAdd s c)

/-- The `leave`/close handlers' registry mutation:
`const set = ensureRoom(room); set.delete(clientId);`. -/
def removeMember (rooms : Rooms) (r c : String) : Rooms :=
  updateRoom (ensureRoom rooms r) r (fun s => setDelete s c)

/-- `(rooms.get(room) || new Set()).size`. -/
def roomCount (rooms : Rooms) (r : String) : Nat :=
  (getRoom rooms r).length

/-- One per-socket session: socket identity, `ws._room`, `ws._clientId`,
`ws.isAlive`, and whether `ws.readyState === WebSocket.OPEN`. -/
structure Session where
  sid : Nat
  _room : Option String
  _clientId : Option String
  isAlive : Bool
  readyStateOpen : Bool
deriving Repr, DecidableEq

/-- A decoded inbound JSON object (`data` after `JSON.parse`): every
field is optional; `presence` is treated as an opaque blob. -/
structure Data where
  type : Option String := none
  room : Option String := none
  clientId : Option String := none
  username : Option String := none
  message : Option String := none
  presence : Option String := none
deriving Repr, DecidableEq

/-- A server-to-client wire message. -/
inductive OutMsg where
  | presence_count (room : String) (count : Nat)
  | pong
  | presence_update (clientId : String) (presence : String) (room : String)
  | chat (clientId : String) (username : String) (message : String) (room : String)
deriving Repr, DecidableEq

/-- The whole server state: room registry, persisted presence records
(`{room, count}` rows with a unique key on `room`; `updatedAt` elided),
whether `mongoColl` is non-null, and the connected sockets. -/
structure World where
  rooms : Rooms
  store : List (String × Nat)
  mongoColl : Bool
  clients : List Session
deriving Repr, DecidableEq

/-- Upsert `{room, count}` into the store (unique index on `room`). -/
def upsertCount (store : List (String × Nat)) (room : String) (count : Nat) :
    List (String × Nat) :=
  if (store.find? (fun p => p.1 == room)).isSome then
    store.map (fun p => if p.1 == room then (room, count) else p)
  else store ++ [(room, count)]

/-- `async function persistCount(room)`: no-op when `mongoColl` is null;
reads the current count from the authoritative in-memory set and upserts
it; a write failure (`storeFail`) is caught and swallowed, leaving the
store unchanged.  It never touches `rooms` or the sockets. -/
def persistCount (storeFail : Bool) (mongoColl : Bool) (rooms : Rooms)
    (store : List (String × Nat)) (room : String) : List (String × Nat) :=
  if !mongoColl then store
  else if storeFail then store
  else upsertCount store room (roomCount rooms room)

/-- `function broadcastRoomCount(room)`: recompute the count from the
in-memory set and send `presence_count` to every connected socket whose
`readyState` is OPEN, regardless of its room. -/
def broadcastRoomCount (rooms : Rooms) (clients : List Session) (room : String) :
    List (Nat × OutMsg) :=
  (clients.filter (fun c => c.readyStateOpen)).map
    (fun c => (c.sid, OutMsg.presence_count room (roomCount rooms room)))

/-- `const roomName = ws._room || data.room || 'global';` -/
def resolveRoom (wsRoom evRoom : Option String) : String :=
  (jsOr wsRoom (jsOr evRoom (some "global"))).getD ""

/-- The scoped fan-out loop shared by `presence_update` and `chat`:
send `payload` to every socket with `readyState === OPEN` and
`c._room === roomName`. -/
def scopedFanout (clients : List Session) (roomName : String) (payload : OutMsg) :
    List (Nat × OutMsg) :=
  (clients.filter (fun c => c.readyStateOpen && c._room == some roomName)).map
    (fun c => (c.sid, payload))

/-- `ws.on('message', ...)`: parse (`none` models a `JSON.parse` throw or
a null/falsy parse result), then the `data.type` dispatch chain.  The
sender is located by its socket id; outputs are `(recipient sid, msg)`. -/
def handleMessage (storeFail : Bool) (w : World) (sid : Nat) (msg : Option Data) :
    World × List (Nat × OutMsg) :=
  match w.clients.find? (fun s => s.sid == sid) with
  | none => (w, [])
  | some ws =>
    match msg with
    | none => (w, [])
    | some data =>
      if ¬ jstruthy data.type then (w, [])
      else if data.type = some "join" ∧ jstruthy data.room ∧ jstruthy data.clientId then
        let room := data.room.getD ""
        let clientId := data.clientId.getD ""
        let rooms2 := addMember w.rooms room clientId
        let store2 := persistCount storeFail w.mongoColl rooms2 w.store room
        let outs := broadcastRoomCount rooms2 w.clients room
        let clients2 := w.clients.map (fun s =>
          if s.sid == sid then { s with _room := some room, _clientId := some clientId } else s)
        ({ rooms := rooms2, store := store2, mongoColl := w.mongoColl, clients := clients2 }, outs)
      else if data.type = some "leave" ∧ jstruthy data.room ∧ jstruthy data.clientId then
        let room := data.room.getD ""
        let clientId := data.clientId.getD ""
        let rooms2 := removeMember w.rooms room clientId
        let store2 := persistCount storeFail w.mongoColl rooms2 w.store room
        let outs := broadcastRoomCount rooms2 w.clients room
        ({ w with rooms := rooms2, store := store2 }, outs)
      else if data.type = some "ping" then
        (w, [(sid, OutMsg.pong)])
      else if data.type = some "presence_update" ∧ jstruthy data.clientId then
        let roomName := resolveRoom ws._room data.room
        let payload := OutMsg.presence_update (data.clientId.getD "")
          (jsOrD data.presence "\x7b\x7d") roomName
        (w, scopedFanout w.clients roomName payload)
      else if data.type = some "chat" ∧ jstruthy data.clientId then
        let roomName := resolveRoom ws._room data.room
        let payload := OutMsg.chat (data.clientId.getD "")
          (jsOrD data.username "Player") (jsOrD data.message "") roomName
        (w, scopedFanout w.clients roomName payload)
      else (w, [])

/-- `ws.on('close', ...)`: the socket leaves `wss.clients`; if the
session recorded a room and clientId, remove the member, persist and
broadcast (over the remaining sockets — the closing socket is no longer
OPEN); otherwise nothing happens. -/
def handleClose (storeFail : Bool) (w : World) (sid : Nat) :
    World × List (Nat × OutMsg) :=
  match w.clients.find? (fun s => s.sid == sid) with
  | none => (w, [])
  | some ws =>
    let clients2 := w.clients.filter (fun s => !(s.sid == sid))
    if jstruthy ws._room ∧ jstruthy ws._clientId then
      let room := ws._room.getD ""
      let cid := ws._clientId.getD ""
      let rooms2 := removeMember w.rooms room cid
      let store2 := persistCount storeFail w.mongoColl rooms2 w.store room
      let outs := broadcastRoomCount rooms2 clients2 room
      ({ rooms := rooms2, store := store2, mongoColl := w.mongoColl, clients := clients2 }, outs)
    else
      ({ w with clients := clients2 }, [])

/-- One liveness-sweeper visit of one socket (`setInterval` body): a
socket that did not answer the previous probe (`!ws.isAlive`) is
terminated, which fires its close handler; otherwise `isAlive` is
cleared and a transport-level ping is sent (the ping itself produces no
application message). -/
def sweepOne (storeFail : Bool) (w : World) (sid : Nat) :
    World × List (Nat × OutMsg) :=
  match w.clients.find? (fun s => s.sid == sid) with
  | none => (w, [])
  | some ws =>
    if !ws.isAlive then handleClose storeFail w sid
    else
      ({ w with clients := w.clients.map (fun s =>
          if s.sid == sid then { s with isAlive := false } else s) }, [])

/-- Query of a persisted presence record (`findOne({room})`, the `count`
field). -/
def storeLookup (store : List (String × Nat)) (room : String) : Option Nat :=
  (store.find? (fun p => p.1 == room)).map Prod.snd

/-- The inbound messages the server drops with no effect at all: a
`JSON.parse` failure (or falsy parse result), a missing/empty `type`, a
`type` outside the five recognized ones, `join`/`leave` lacking a truthy
`room` or `clientId`, and `chat`/`presence_update` lacking a truthy
`clientId`. -/
def droppedInput (msg : Option Data) : Prop :=
  match msg with
  | none => True
  | some data =>
    ¬ jstruthy data.type
    ∨ (∀ t, data.type = some t →
        t ∉ (["join", "leave", "ping", "presence_update", "chat"] : List String))
    ∨ ((data.type = some "join" ∨ data.type = some "leave") ∧
        ¬ (jstruthy data.room ∧ jstruthy data.clientId))
    ∨ ((data.type = some "presence_update" ∨ data.type = some "chat") ∧
        ¬ jstruthy data.clientId)

/-- A fresh connection: no binding yet, alive, OPEN. -/
def mkSession (i : Nat) : Session :=
  { sid := i, _room := none, _clientId := none, isAlive := true, readyStateOpen := true }

/-- A server that just started (Mongo connected) with three fresh
connections. -/
def w3 : World :=
  { rooms := [], store := [], mongoColl := true, clients := [mkSession 0, mkSession 1, mkSession 2] }

/-- `{"type":"join","room":r,"clientId":c}`. -/
def joinData (r c : String) : Data :=
  { type := some "join", room := some r, clientId := some c }

/-- `{"type":"leave","room":r,"clientId":c}`. -/
def leaveData (r c : String) : Data :=
  { type := some "leave", room := some r, clientId := some c }

/-- `{"type":"chat","clientId":c}` — no `room`, no `message`. -/
def chatBare (c : String) : Data :=
  { type := some "chat", clientId := some c }

/-- `w3` after socket 0 joined `"lobby"` as `"x1"` and socket 1 joined
`"arena"` as `"z1"`. -/
def wLobbyArena : World :=
  (handleMessage false
    ((handleMessage false w3 0 (some (joinData "lobby" "x1"))).1)
    1 (some (joinData "arena" "z1"))).1

/-- `w3` after socket 2 joined the room literally named `"global"`;
sockets 0 and 1 never joined anything. -/
def wGlobalJoined : World :=
  (handleMessage false w3 2 (some (joinData "global" "g1"))).1

/-- `{"type":"join"}` with no `room` and no `clientId` (scenario E). -/
def joinBare : Data :=
  { type := some "join" }

/-- `w3` after socket 0 joined `"A"` as client `"c"`. -/
def wA : World :=
  (handleMessage false w3 0 (some (joinData "A" "c"))).1

/-- `w3` after socket 0 joined `"A"` and then `"B"` as the same client
`"c"`, with no intervening leave. -/
def wAB : World :=
  (handleMessage false
    ((handleMessage false w3 0 (some (joinData "A" "c"))).1)
    0 (some (joinData "B" "c"))).1

/-- `w3` after socket 0 joined `"lobby"` as `"x1"` and then sent an
explicit leave — the session binding still reads `("lobby", "x1")`. -/
def wAfterLeave : World :=
  (handleMessage false
    ((handleMessage false w3 0 (some (joinData "lobby" "x1"))).1)
    0 (some (leaveData "lobby" "x1"))).1

/-- `w3` after sockets 0 and 1 both joined `"lobby"`. -/
def wTwoLobby : World :=
  (handleMessage false
    ((handleMessage false w3 0 (some (joinData "lobby" "x1"))).1)
    1 (some (joinData "lobby" "y1"))).1

/-- Socket 0 as it looks inside `wLobbyArena`. -/
def sesLobby : Session :=
  { sid := 0, _room := some "lobby", _clientId := some "x1",
    isAlive := true, readyStateOpen := true }

/-- Socket 1 as it looks inside `wLobbyArena`. -/
def sesArena : Session :=
  { sid := 1, _room := some "arena", _clientId := some "z1",
    isAlive := true, readyStateOpen := true }

/-! ## Basic lemmas about the member-set operations -/

theorem mem_setAdd_self (s : List String) (c : String) : c ∈ setAdd s c := by
  unfold setAdd
  by_cases h : c ∈ s
  · simpa [h]
  · simp [h]

theorem setAdd_idem (s : List String) (c : String) : setAdd (setAdd s c) c = setAdd s c := by
  unfold setAdd
  by_cases h : c ∈ s
  · simp [h]
  · simp [h]

theorem setAdd_nodup (s : List String) (c : String) (h : s.Nodup) : (setAdd s c).Nodup := by
  unfold setAdd
  by_cases hc : c ∈ s
  · simpa [hc]
  · simp [hc, List.nodup_append, h]

theorem mem_setAdd_iff (s : List String) (c x : String) :
    x ∈ setAdd s c ↔ x ∈ s ∨ x = c := by
  unfold setAdd
  by_cases h : c ∈ s
  · simp only [h, if_true]
    constructor
    · exact Or.inl
    · rintro (hx | rfl)
      · exact hx
      · exact h
  · simp [h]

theorem setDelete_not_mem (s : List String) (c : String) (h : c ∉ s) : setDelete s c = s := by
  unfold setDelete
  refine List.filter_eq_self.mpr (fun a ha => ?_)
  simp only [decide_eq_true_eq]
  exact fun hac => h (hac ▸ ha)

theorem not_mem_setDelete (s : List String) (c : String) : c ∉ setDelete s c := by
  unfold setDelete
  intro hmem
  have := (List.mem_filter.mp hmem).2
  simp at this

theorem setDelete_length (s : List String) (c : String) (h : s.Nodup) (hm : c ∈ s) :
    (setDelete s c).length + 1 = s.length := by
  have herase : setDelete s c = s.erase c := by
    unfold setDelete
    rw [List.Nodup.erase_eq_filter h c]
    congr 1
    funext x
    rw [Bool.eq_iff_iff]
    simp
  rw [herase]
  exact List.length_erase_add_one hm

theorem setDelete_nodup (s : List String) (c : String) (h : s.Nodup) : (setDelete s c).Nodup :=
  List.Nodup.filter _ h

/-! ## Lemmas about the room registry -/

theorem getRoom_eq_nil_of_not_has (rooms : Rooms) (r : String) (h : hasRoom rooms r = false) :
    getRoom rooms r = [] := by
  unfold hasRoom at h
  unfold getRoom
  cases hf : rooms.find? (fun p => p.1 == r) with
  | none => rfl
  | some p => rw [hf] at h; simp at h

theorem find?_append_fresh (rooms : Rooms) (r : String) (s : List String)
    (h : rooms.find? (fun p => p.1 == r) = none) :
    (rooms ++ [(r, s)]).find? (fun p => p.1 == r) = some (r, s) := by
  rw [List.find?_append, h]
  simp

theorem hasRoom_ensureRoom (rooms : Rooms) (r : String) :
    hasRoom (ensureRoom rooms r) r = true := by
  unfold ensureRoom
  by_cases h : hasRoom rooms r = true
  · simpa [h]
  · have h0 : rooms.find? (fun p => p.1 == r) = none := by
      unfold hasRoom at h
      exact Option.not_isSome_iff_eq_none.mp (by simpa using h)
    rw [if_neg h]
    unfold hasRoom
    rw [find?_append_fresh rooms r [] h0]
    rfl

theorem getRoom_ensureRoom (rooms : Rooms) (r : String) :
    getRoom (ensureRoom rooms r) r = getRoom rooms r := by
  unfold ensureRoom
  by_cases h : hasRoom rooms r = true
  · simp [h]
  · have h0 : rooms.find? (fun p => p.1 == r) = none := by
      unfold hasRoom at h
      exact Option.not_isSome_iff_eq_none.mp (by simpa using h)
    rw [if_neg h]
    unfold getRoom
    rw [find?_append_fresh rooms r [] h0, h0]

theorem getRoom_ensureRoom_ne (rooms : Rooms) (r r2 : String) (h : r2 ≠ r) :
    getRoom (ensureRoom rooms r) r2 = getRoom rooms r2 := by
  unfold ensureRoom
  by_cases hh : hasRoom rooms r = true
  · simp [hh]
  · rw [if_neg hh]
    unfold getRoom
    rw [List.find?_append]
    have hsingle : List.find? (fun p => p.1 == r2) [(r, ([] : List String))] = none := by
      simp only [List.find?_cons, List.find?_nil]
      have : ((r, ([] : List String)).1 == r2) = false := by
        simp only [beq_eq_false_iff_ne, ne_eq]
        exact fun hr => h hr.symm
      rw [this]
    rw [hsingle]
    cases rooms.find? (fun p => p.1 == r2) with
    | none => rfl
    | some p => rfl

theorem hasRoom_updateRoom (rooms : Rooms) (r r2 : String) (f : List String → List String) :
    hasRoom (updateRoom rooms r f) r2 = hasRoom rooms r2 := by
  unfold hasRoom updateRoom
  induction rooms with
  | nil => rfl
  | cons a t ih =>
    simp only [List.map_cons]
    by_cases ha : (a.1 == r) = true
    · rw [if_pos ha]
      simp only [List.find?_cons]
      by_cases ha2 : (a.1 == r2) = true
      · simp [ha2]
      · have ha2' : (a.1 == r2) = false := by simpa using ha2
        simp only [ha2']
        exact ih
    · rw [if_neg ha]
      simp only [List.find?_cons]
      by_cases ha2 : (a.1 == r2) = true
      · simp [ha2]
      · have ha2' : (a.1 == r2) = false := by simpa using ha2
        simp only [ha2']
        exact ih

theorem getRoom_updateRoom_self (rooms : Rooms) (r : String) (f : List String → List String)
    (h : hasRoom rooms r = true) :
    getRoom (updateRoom rooms r f) r = f (getRoom rooms r) := by
  unfold hasRoom at h
  unfold getRoom updateRoom
  induction rooms with
  | nil => simp at h
  | cons a t ih =>
    simp only [List.map_cons]
    by_cases ha : (a.1 == r) = true
    · rw [if_pos ha]
      simp only [List.find?_cons]
      simp [ha]
    · rw [if_neg ha]
      have ha' : (a.1 == r) = false := by simpa using ha
      simp only [List.find?_cons] at h ⊢
      simp only [ha'] at h ⊢
      exact ih h

theorem getRoom_updateRoom_ne (rooms : Rooms) (r r2 : String) (f : List String → List String)
    (h : r2 ≠ r) :
    getRoom (updateRoom rooms r f) r2 = getRoom rooms r2 := by
  unfold getRoom updateRoom
  induction rooms with
  | nil => rfl
  | cons a t ih =>
    simp only [List.map_cons]
    by_cases ha : (a.1 == r) = true
    · rw [if_pos ha]
      have haeq : a.1 = r := by simpa using ha
      have ha2 : (a.1 == r2) = false := by
        simp only [beq_eq_false_iff_ne, ne_eq]
        intro hr2
        exact h (hr2 ▸ haeq)
      simp only [List.find?_cons]
      simp only [ha2]
      exact ih
    · rw [if_neg ha]
      simp only [List.find?_cons]
      by_cases ha2 : (a.1 == r2) = true
      · simp [ha2]
      · have ha2' : (a.1 == r2) = false := by simpa using ha2
        simp only [ha2']
        exact ih

theorem updateRoom_updateRoom (rooms : Rooms) (r : String)
    (f g : List String → List String) :
    updateRoom (updateRoom rooms r f) r g = updateRoom rooms r (fun s => g (f s)) := by
  unfold updateRoom
  rw [List.map_map]
  congr 1
  funext p
  by_cases h : (p.1 == r) = true
  · simp [Function.comp, h]
  · simp [Function.comp, h]

/-! ## The registry operations used by the handlers -/

theorem getRoom_addMember_self (rooms : Rooms) (r c : String) :
    getRoom (addMember rooms r c) r = setAdd (getRoom rooms r) c := by
  unfold addMember
  rw [getRoom_updateRoom_self _ _ _ (hasRoom_ensureRoom rooms r), getRoom_ensureRoom]

theorem getRoom_addMember_ne (rooms : Rooms) (r r2 c : String) (h : r2 ≠ r) :
    getRoom (addMember rooms r c) r2 = getRoom rooms r2 := by
  unfold addMember
  rw [getRoom_updateRoom_ne _ _ _ _ h, getRoom_ensureRoom_ne _ _ _ h]

theorem getRoom_removeMember_self (rooms : Rooms) (r c : String) :
    getRoom (removeMember rooms r c) r = setDelete (getRoom rooms r) c := by
  unfold removeMember
  rw [getRoom_updateRoom_self _ _ _ (hasRoom_ensureRoom rooms r), getRoom_ensureRoom]

theorem getRoom_removeMember_ne (rooms : Rooms) (r r2 c : String) (h : r2 ≠ r) :
    getRoom (removeMember rooms r c) r2 = getRoom rooms r2 := by
  unfold removeMember
  rw [getRoom_updateRoom_ne _ _ _ _ h, getRoom_ensureRoom_ne _ _ _ h]

theorem ensureRoom_of_has (rooms : Rooms) (r : String) (h : hasRoom rooms r = true) :
    ensureRoom rooms r = rooms := by
  unfold ensureRoom
  simp [h]

theorem addMember_idem (rooms : Rooms) (r c : String) :
    addMember (addMember rooms r c) r c = addMember rooms r c := by
  unfold addMember
  have h1 : hasRoom (updateRoom (ensureRoom rooms r) r (fun s => setAdd s c)) r = true := by
    rw [hasRoom_updateRoom]
    exact hasRoom_ensureRoom rooms r
  rw [ensureRoom_of_has _ _ h1, updateRoom_updateRoom]
  congr 1
  funext s
  exact setAdd_idem s c

/-! ## Reduction equations for the message handler's branches -/

theorem mem_scopedFanout (clients : List Session) (roomName : String) (payload : OutMsg)
    (p : Nat × OutMsg) :
    p ∈ scopedFanout clients roomName payload ↔
      ∃ c ∈ clients, c.readyStateOpen = true ∧ c._room = some roomName ∧ p = (c.sid, payload) := by
  unfold scopedFanout
  simp only [List.mem_map, List.mem_filter, Bool.and_eq_true, beq_iff_eq]
  constructor
  · rintro ⟨c, ⟨hc, hopen, hroom⟩, rfl⟩
    exact ⟨c, hc, hopen, hroom, rfl⟩
  · rintro ⟨c, hc, hopen, hroom, rfl⟩
    exact ⟨c, ⟨hc, hopen, hroom⟩, rfl⟩

theorem handleMessage_join_eq (sf : Bool) (w : World) (sid : Nat) (ws : Session)
    (data : Data) (room clientId : String)
    (hfind : w.clients.find? (fun s => s.sid == sid) = some ws)
    (htype : data.type = some "join") (hroom : data.room = some room)
    (hcid : data.clientId = some clientId) (hr : room ≠ "") (hc : clientId ≠ "") :
    handleMessage sf w sid (some data) =
      ({ rooms := addMember w.rooms room clientId,
         store := persistCount sf w.mongoColl (addMember w.rooms room clientId) w.store room,
         mongoColl := w.mongoColl,
         clients := w.clients.map (fun s =>
           if s.sid == sid then { s with _room := some room, _clientId := some clientId }
           else s) },
       broadcastRoomCount (addMember w.rooms room clientId) w.clients room) := by
  unfold handleMessage
  rw [hfind]
  simp [htype, hroom, hcid, jstruthy, hr, hc]

theorem handleMessage_leave_eq (sf : Bool) (w : World) (sid : Nat) (ws : Session)
    (data : Data) (room clientId : String)
    (hfind : w.clients.find? (fun s => s.sid == sid) = some ws)
    (htype : data.type = some "leave") (hroom : data.room = some room)
    (hcid : data.clientId = some clientId) (hr : room ≠ "") (hc : clientId ≠ "") :
    handleMessage sf w sid (some data) =
      ({ w with rooms := removeMember w.rooms room clientId,
                store := persistCount sf w.mongoColl (removeMember w.rooms room clientId)
                  w.store room },
       broadcastRoomCount (removeMember w.rooms room clientId) w.clients room) := by
  unfold handleMessage
  rw [hfind]
  simp [htype, hroom, hcid, jstruthy, hr, hc]

theorem handleMessage_chat_eq (sf : Bool) (w : World) (sid : Nat) (ws : Session) (data : Data)
    (hfind : w.clients.find? (fun s => s.sid == sid) = some ws)
    (htype : data.type = some "chat") (hcid : jstruthy data.clientId = true) :
    handleMessage sf w sid (some data) =
      (w, scopedFanout w.clients (resolveRoom ws._room data.room)
        (OutMsg.chat (data.clientId.getD "") (jsOrD data.username "Player")
          (jsOrD data.message "") (resolveRoom ws._room data.room))) := by
  unfold handleMessage
  rw [hfind]
  unfold jstruthy at hcid
  simp only [decide_not] at hcid
  simp [htype, hcid, jstruthy]

theorem handleMessage_presence_update_eq (sf : Bool) (w : World) (sid : Nat) (ws : Session)
    (data : Data)
    (hfind : w.clients.find? (fun s => s.sid == sid) = some ws)
    (htype : data.type = some "presence_update") (hcid : jstruthy data.clientId = true) :
    handleMessage sf w sid (some data) =
      (w, scopedFanout w.clients (resolveRoom ws._room data.room)
        (OutMsg.presence_update (data.clientId.getD "")
          (jsOrD data.presence "\x7b\x7d") (resolveRoom ws._room data.room))) := by
  unfold handleMessage
  rw [hfind]
  unfold jstruthy at hcid
  simp only [decide_not] at hcid
  simp [htype, hcid, jstruthy]

theorem handleMessage_ping_eq (sf : Bool) (w : World) (sid : Nat) (ws : Session) (data : Data)
    (hfind : w.clients.find? (fun s => s.sid == sid) = some ws)
    (htype : data.type = some "ping") :
    handleMessage sf w sid (some data) = (w, [(sid, OutMsg.pong)]) := by
  unfold handleMessage
  rw [hfind]
  simp [htype, jstruthy]

theorem handleClose_bound_eq (sf : Bool) (w : World) (sid : Nat) (ws : Session) (r c : String)
    (hfind : w.clients.find? (fun s => s.sid == sid) = some ws)
    (hr : ws._room = some r) (hc : ws._clientId = some c) (hrne : r ≠ "") (hcne : c ≠ "") :
    handleClose sf w sid =
      ({ rooms := removeMember w.rooms r c,
         store := persistCount sf w.mongoColl (removeMember w.rooms r c) w.store r,
         mongoColl := w.mongoColl,
         clients := w.clients.filter (fun s => !(s.sid == sid)) },
       broadcastRoomCount (removeMember w.rooms r c)
         (w.clients.filter (fun s => !(s.sid == sid))) r) := by
  unfold handleClose
  rw [hfind]
  simp [hr, hc, jstruthy, hrne, hcne]

theorem handleClose_unbound_eq (sf : Bool) (w : World) (sid : Nat) (ws : Session)
    (hfind : w.clients.find? (fun s => s.sid == sid) = some ws)
    (hnb : ¬ (jstruthy ws._room ∧ jstruthy ws._clientId)) :
    handleClose sf w sid =
      ({ w with clients := w.clients.filter (fun s => !(s.sid == sid)) }, []) := by
  unfold handleClose
  rw [hfind]
  simp [hnb]

theorem handleMessage_dropped_eq (sf : Bool) (w : World) (sid : Nat) (msg : Option Data)
    (h : droppedInput msg) :
    handleMessage sf w sid msg = (w, []) := by
  unfold handleMessage
  cases hfind : w.clients.find? (fun s => s.sid == sid) with
  | none => rfl
  | some ws =>
    cases msg with
    | none => rfl
    | some data =>
      unfold droppedInput at h
      by_cases ht : jstruthy data.type = true
      · rcases h with h1 | h2 | h3 | h4
        · exact absurd ht h1
        · obtain ⟨t0, ht0⟩ : ∃ t0, data.type = some t0 := by
            cases hdt : data.type with
            | none => rw [hdt] at ht; simp [jstruthy] at ht
            | some t => exact ⟨t, rfl⟩
          have hne := h2 t0 ht0
          simp only [List.mem_cons, List.not_mem_nil, or_false, not_or] at hne
          obtain ⟨hj, hl, hpi, hpu, hch⟩ := hne
          simp [ht, ht0, hj, hl, hpi, hpu, hch]
        · obtain ⟨hjl, hnf⟩ := h3
          cases hroomb : jstruthy data.room with
          | true =>
            cases hcidb : jstruthy data.clientId with
            | true => exact absurd ⟨hroomb, hcidb⟩ hnf
            | false =>
              rcases hjl with hty | hty
              · simp [ht, hty, hcidb]
              · simp [ht, hty, hcidb]
          | false =>
            rcases hjl with hty | hty
            · simp [ht, hty, hroomb]
            · simp [ht, hty, hroomb]
        · obtain ⟨hpc, hnc⟩ := h4
          have hnc' : jstruthy data.clientId = false := by
            cases hcb : jstruthy data.clientId with
            | true => exact absurd hcb hnc
            | false => rfl
          rcases hpc with hty | hty
          · simp [ht, hty, hnc']
          · simp [ht, hty, hnc']
      · have ht' : jstruthy data.type = false := by
          cases htb : jstruthy data.type with
          | true => exact absurd htb ht
          | false => rfl
        simp [ht']

theorem mem_broadcastRoomCount (rooms : Rooms) (clients : List Session) (room : String)
    (p : Nat × OutMsg) :
    p ∈ broadcastRoomCount rooms clients room ↔
      ∃ c ∈ clients, c.readyStateOpen = true ∧
        p = (c.sid, OutMsg.presence_count room (roomCount rooms room)) := by
  unfold broadcastRoomCount
  simp only [List.mem_map, List.mem_filter]
  constructor
  · rintro ⟨c, ⟨hc, hopen⟩, rfl⟩
    exact ⟨c, hc, hopen, rfl⟩
  · rintro ⟨c, hc, hopen, rfl⟩
    exact ⟨c, ⟨hc, hopen⟩, rfl⟩

theorem resolveRoom_bound (r : String) (evRoom : Option String) (hr : r ≠ "") :
    resolveRoom (some r) evRoom = r := by
  simp [resolveRoom, jsOr, jstruthy, hr]

theorem resolveRoom_unbound_noroom (evRoom : Option String) (h : jstruthy evRoom = false) :
    resolveRoom none evRoom = "global" := by
  unfold resolveRoom jsOr
  rw [h]
  simp [jstruthy]

theorem find?_map_upsert (store : List (String × Nat)) (room : String) (cnt : Nat)
    (h : (store.find? (fun p => p.1 == room)).isSome = true) :
    (store.map (fun p => if p.1 == room then (room, cnt) else p)).find?
      (fun p => p.1 == room) = some (room, cnt) := by
  induction store with
  | nil => simp at h
  | cons a t ih =>
    simp only [List.map_cons]
    by_cases ha : (a.1 == room) = true
    · rw [if_pos ha]
      simp only [List.find?_cons]
      have hrefl : ((room, cnt).1 == room) = true := by simp
      simp [hrefl]
    · rw [if_neg ha]
      have ha' : (a.1 == room) = false := by simpa using ha
      simp only [List.find?_cons] at h ⊢
      simp only [ha'] at h ⊢
      exact ih h

theorem storeLookup_upsertCount (store : List (String × Nat)) (room : String) (cnt : Nat) :
    storeLookup (upsertCount store room cnt) room = some cnt := by
  unfold storeLookup upsertCount
  by_cases h : (store.find? (fun p => p.1 == room)).isSome = true
  · rw [if_pos h, find?_map_upsert store room cnt h]
    rfl
  · rw [if_neg h]
    have h0 : store.find? (fun p => p.1 == room) = none :=
      Option.not_isSome_iff_eq_none.mp (by simpa using h)
    rw [List.find?_append, h0]
    simp


theorem persistCount_storeFail_eq (m : Bool) (rooms : Rooms) (store : List (String × Nat))
    (room : String) : persistCount true m rooms store room = store := by
  cases m <;> simp [persistCount]

theorem scopedFanout_recipient (clients : List Session) (roomName : String)
    (payload : OutMsg) (cl : Session) (m : OutMsg)
    (hsids : (clients.map Session.sid).Nodup) (hcl : cl ∈ clients)
    (hmem : (cl.sid, m) ∈ scopedFanout clients roomName payload) :
    cl.readyStateOpen = true ∧ cl._room = some roomName := by
  rcases (mem_scopedFanout clients roomName payload _).mp hmem with ⟨c, hc, hopen, hroom, heq⟩
  have hsid : cl.sid = c.sid := congrArg Prod.fst heq
  have hcc : cl = c := List.inj_on_of_nodup_map hsids hcl hc hsid
  rw [hcc]
  exact ⟨hopen, hroom⟩

theorem handleMessage_storeFail (w : World) (sid : Nat) (msg : Option Data) :
    handleMessage true w sid msg =
      ({ (handleMessage false w sid msg).1 with store := w.store },
       (handleMessage false w sid msg).2) := by
  unfold handleMessage
  cases hfind : w.clients.find? (fun s => s.sid == sid) with
  | none => rfl
  | some ws =>
    cases msg with
    | none => rfl
    | some data =>
      by_cases h1 : ¬ jstruthy data.type = true
      · simp [h1]
      · by_cases h2 : data.type = some "join" ∧ jstruthy data.room = true ∧
            jstruthy data.clientId = true
        · obtain ⟨ht2, hro, hci⟩ := h2
          unfold jstruthy at hro hci
          simp only [decide_not] at hro hci
          simp [ht2, hro, hci, persistCount_storeFail_eq, jstruthy]
        · by_cases h3 : data.type = some "leave" ∧ jstruthy data.room = true ∧
              jstruthy data.clientId = true
          · obtain ⟨ht3, hro, hci⟩ := h3
            unfold jstruthy at hro hci
            simp only [decide_not] at hro hci
            simp [ht3, hro, hci, persistCount_storeFail_eq, jstruthy]
          · by_cases h4 : data.type = some "ping"
            · simp [h4, jstruthy]
            · by_cases h5 : data.type = some "presence_update" ∧ jstruthy data.clientId = true
              · obtain ⟨ht5, hci⟩ := h5
                unfold jstruthy at hci
                simp only [decide_not] at hci
                simp [ht5, hci, jstruthy]
              · by_cases h6 : data.type = some "chat" ∧ jstruthy data.clientId = true
                · obtain ⟨ht6, hci⟩ := h6
                  unfold jstruthy at hci
                  simp only [decide_not] at hci
                  simp [ht6, hci, jstruthy]
                · simp [h1, h2, h3, h4, h5, h6]

theorem handleClose_storeFail (w : World) (sid : Nat) :
    handleClose true w sid =
      ({ (handleClose false w sid).1 with store := w.store }, (handleClose false w sid).2) := by
  unfold handleClose
  cases hfind : w.clients.find? (fun s => s.sid == sid) with
  | none => rfl
  | some ws =>
    by_cases hb : jstruthy ws._room = true ∧ jstruthy ws._clientId = true
    · simp [hb, persistCount_storeFail_eq]
    · simp [hb]

/-! ## The claims -/

/-- C9: Membership idempotence: adding the same client to a room twice
yields the same registry as adding it once; removing an absent client
changes no member set; and the count of a room equals the cardinality of
its member set. -/
theorem membership_idempotence (rooms : Rooms) (r r2 c : String)
    (habs : c ∉ getRoom rooms r) (hnd : (getRoom rooms r).Nodup) :
    addMember (addMember rooms r c) r c = addMember rooms r c ∧
    getRoom (removeMember rooms r c) r2 = getRoom rooms r2 ∧
    roomCount rooms r = (getRoom rooms r).toFinset.card := by
  refine ⟨addMember_idem rooms r c, ?_, ?_⟩
  · by_cases h : r2 = r
    · subst h
      rw [getRoom_removeMember_self, setDelete_not_mem _ _ habs]
    · exact getRoom_removeMember_ne rooms r r2 c h
  · rw [roomCount, List.toFinset_card_of_nodup hnd]

/-- Witness for C9 at the registry `[("lobby", ["a"])]`, absent client
`"b"`, probe room `"x"`. -/
theorem membership_idempotence_witness :
    ("b" ∉ getRoom [("lobby", ["a"])] "lobby") ∧
    (addMember (addMember [("lobby", ["a"])] "lobby" "b") "lobby" "b" =
        addMember [("lobby", ["a"])] "lobby" "b" ∧
      getRoom (removeMember [("lobby", ["a"])] "lobby" "b") "x" =
        getRoom [("lobby", ["a"])] "x" ∧
      roomCount [("lobby", ["a"])] "lobby" =
        (getRoom [("lobby", ["a"])] "lobby").toFinset.card) :=
  ⟨by decide, membership_idempotence [("lobby", ["a"])] "lobby" "x" "b" (by decide) (by decide)⟩

/-- C2: Count authority: every `presence_count` message produced by
`broadcastRoomCount` carries the cardinality of the in-memory
member set, and the value `persistCount` writes on a successful write is
that same cardinality — both recompute from the authoritative set. -/
theorem count_authority (rooms : Rooms) (clients : List Session)
    (store : List (String × Nat)) (room : String) (p : Nat × OutMsg)
    (hnd : (getRoom rooms room).Nodup) :
    (p ∈ broadcastRoomCount rooms clients room →
      p.2 = OutMsg.presence_count room (getRoom rooms room).toFinset.card) ∧
    storeLookup (persistCount false true rooms store room) room =
      some (getRoom rooms room).toFinset.card := by
  have hcard : (getRoom rooms room).toFinset.card = roomCount rooms room :=
    List.toFinset_card_of_nodup hnd
  constructor
  · intro hp
    rcases (mem_broadcastRoomCount rooms clients room p).mp hp with ⟨c, _, _, rfl⟩
    simp [hcard]
  · have hpc : persistCount false true rooms store room =
        upsertCount store room (roomCount rooms room) := by
      simp [persistCount]
    rw [hpc, storeLookup_upsertCount, hcard]

/-- Witness for C2 at the registry `[("lobby", ["a", "b"])]`. -/
theorem count_authority_witness :
    (getRoom [("lobby", ["a", "b"])] "lobby").Nodup ∧
    (((0 : Nat), OutMsg.presence_count "lobby" 2) ∈
        broadcastRoomCount [("lobby", ["a", "b"])] [mkSession 0] "lobby" →
      ((0 : Nat), OutMsg.presence_count "lobby" 2).2 =
        OutMsg.presence_count "lobby" (getRoom [("lobby", ["a", "b"])] "lobby").toFinset.card) ∧
    storeLookup (persistCount false true [("lobby", ["a", "b"])] [] "lobby") "lobby" =
      some (getRoom [("lobby", ["a", "b"])] "lobby").toFinset.card :=
  ⟨by decide,
    (count_authority [("lobby", ["a", "b"])] [mkSession 0] [] "lobby"
      ((0 : Nat), OutMsg.presence_count "lobby" 2) (by decide)).1,
    (count_authority [("lobby", ["a", "b"])] [mkSession 0] [] "lobby"
      ((0 : Nat), OutMsg.presence_count "lobby" 2) (by decide)).2⟩

/-- C3: Storage-failure isolation: a failing durable write (`storeFail =
true`) leaves the resulting room registry, session list and emitted
broadcasts of the message and close handlers identical to those of a
successful write, and leaves the store untouched; and with no established
store connection (`mongoColl = false`) even a non-failing `persistCount`
writes nothing. -/
theorem storage_failure_isolation (w : World) (sid : Nat) (msg : Option Data) (room : String) :
    (handleMessage true w sid msg).1.rooms = (handleMessage false w sid msg).1.rooms ∧
    (handleMessage true w sid msg).1.clients = (handleMessage false w sid msg).1.clients ∧
    (handleMessage true w sid msg).2 = (handleMessage false w sid msg).2 ∧
    (handleMessage true w sid msg).1.store = w.store ∧
    (handleClose true w sid).1.rooms = (handleClose false w sid).1.rooms ∧
    (handleClose true w sid).1.clients = (handleClose false w sid).1.clients ∧
    (handleClose true w sid).2 = (handleClose false w sid).2 ∧
    (handleClose true w sid).1.store = w.store ∧
    persistCount false false w.rooms w.store room = w.store := by
  rw [handleMessage_storeFail, handleClose_storeFail]
  exact ⟨rfl, rfl, rfl, rfl, rfl, rfl, rfl, rfl, by simp [persistCount]⟩



theorem scopedFanout_mem_self (clients : List Session) (roomName : String) (payload : OutMsg)
    (c : Session) (hc : c ∈ clients) (hopen : c.readyStateOpen = true)
    (hroom : c._room = some roomName) :
    (c.sid, payload) ∈ scopedFanout clients roomName payload :=
  (mem_scopedFanout _ _ _ _).mpr ⟨c, hc, hopen, hroom, rfl⟩

/-- C1: Room isolation of scoped fan-out: a `chat` or `presence_update`
event whose sender resolves to room `r1` is never delivered to a session
bound to a different room `r2`. -/
theorem room_isolation (sf : Bool) (w : World) (sid : Nat) (ws : Session) (data : Data)
    (r1 r2 : String) (cl : Session) (m : OutMsg)
    (hfind : w.clients.find? (fun s => s.sid == sid) = some ws)
    (htype : data.type = some "chat" ∨ data.type = some "presence_update")
    (hcid : jstruthy data.clientId = true)
    (hres : resolveRoom ws._room data.room = r1)
    (hsids : (w.clients.map Session.sid).Nodup)
    (hcl : cl ∈ w.clients) (hclroom : cl._room = some r2) (hner : r2 ≠ r1) :
    (cl.sid, m) ∉ (handleMessage sf w sid (some data)).2 := by
  intro hmem
  rcases htype with htype | htype
  · rw [handleMessage_chat_eq sf w sid ws data hfind htype hcid] at hmem
    have hrec := scopedFanout_recipient w.clients (resolveRoom ws._room data.room) _
      cl m hsids hcl hmem
    have h2 := hrec.2
    rw [hres, hclroom] at h2
    exact hner (Option.some.inj h2)
  · rw [handleMessage_presence_update_eq sf w sid ws data hfind htype hcid] at hmem
    have hrec := scopedFanout_recipient w.clients (resolveRoom ws._room data.room) _
      cl m hsids hcl hmem
    have h2 := hrec.2
    rw [hres, hclroom] at h2
    exact hner (Option.some.inj h2)

/-- Witness for C1: in `wLobbyArena`, a chat from socket 0 (room
`"lobby"`) is not delivered to socket 1 (room `"arena"`). -/
theorem room_isolation_witness :
    ((sesArena.sid, OutMsg.chat "x1" "Player" "" "lobby") ∉
      (handleMessage false wLobbyArena 0 (some (chatBare "x1"))).2) :=
  room_isolation false wLobbyArena 0 sesLobby (chatBare "x1") "lobby" "arena"
    sesArena (OutMsg.chat "x1" "Player" "" "lobby")
    (by decide) (Or.inl rfl) (by decide) (by decide) (by decide) (by decide) rfl (by decide)

/-- C10: Sender self-echo: the fan-out recipients of a `chat` or
`presence_update` are exactly the open sessions bound to the resolved
room, with no exclusion of the sender; in particular a bound open sender
receives its own relayed message. -/
theorem sender_self_echo (sf : Bool) (w : World) (sid : Nat) (ws : Session) (data : Data)
    (r : String) (cl : Session)
    (hfind : w.clients.find? (fun s => s.sid == sid) = some ws)
    (htype : data.type = some "chat" ∨ data.type = some "presence_update")
    (hcid : jstruthy data.clientId = true)
    (hbound : ws._room = some r) (hrne : r ≠ "") (hopen : ws.readyStateOpen = true)
    (hsids : (w.clients.map Session.sid).Nodup) (hcl : cl ∈ w.clients) :
    (∃ m, (sid, m) ∈ (handleMessage sf w sid (some data)).2) ∧
    ((∃ m, (cl.sid, m) ∈ (handleMessage sf w sid (some data)).2) ↔
      (cl.readyStateOpen = true ∧ cl._room = some r)) := by
  have hws_sid : ws.sid = sid := by
    have := List.find?_some hfind
    simpa using this
  have hwsmem : ws ∈ w.clients := List.mem_of_find?_eq_some hfind
  have hres : resolveRoom ws._room data.room = r := by
    rw [hbound]
    exact resolveRoom_bound r data.room hrne
  rcases htype with htype | htype
  · rw [handleMessage_chat_eq sf w sid ws data hfind htype hcid, hres]
    refine ⟨⟨_, hws_sid ▸ scopedFanout_mem_self w.clients r _ ws hwsmem hopen hbound⟩, ?_, ?_⟩
    · rintro ⟨m, hm⟩
      exact scopedFanout_recipient w.clients r _ cl m hsids hcl hm
    · rintro ⟨hclopen, hclroom⟩
      exact ⟨_, scopedFanout_mem_self w.clients r _ cl hcl hclopen hclroom⟩
  · rw [handleMessage_presence_update_eq sf w sid ws data hfind htype hcid, hres]
    refine ⟨⟨_, hws_sid ▸ scopedFanout_mem_self w.clients r _ ws hwsmem hopen hbound⟩, ?_, ?_⟩
    · rintro ⟨m, hm⟩
      exact scopedFanout_recipient w.clients r _ cl m hsids hcl hm
    · rintro ⟨hclopen, hclroom⟩
      exact ⟨_, scopedFanout_mem_self w.clients r _ cl hcl hclopen hclroom⟩

/-- Witness for C10: in `wLobbyArena`, socket 0 (bound to `"lobby"`,
open) chats and receives its own message back. -/
theorem sender_self_echo_witness :
    (∃ m, ((0 : Nat), m) ∈ (handleMessage false wLobbyArena 0 (some (chatBare "x1"))).2) ∧
    ((∃ m, (sesLobby.sid, m) ∈ (handleMessage false wLobbyArena 0 (some (chatBare "x1"))).2) ↔
      (sesLobby.readyStateOpen = true ∧ sesLobby._room = some "lobby")) :=
  sender_self_echo false wLobbyArena 0 sesLobby (chatBare "x1") "lobby" sesLobby
    (by decide) (Or.inl rfl) (by decide) rfl (by decide) rfl (by decide) (by decide)


/-- Counterexample for C8: in `wGlobalJoined` (sockets 0 and 1 unbound,
socket 2 explicitly joined the room named `"global"`), a chat from the
unbound socket 0 with no `room` field is delivered to socket 2 — a
session bound to a named room — and to no unbound session (not even the
sender), contradicting the claim that it is delivered only to similarly
unbound sessions and never to a session bound to a named room. -/
theorem fallback_resolution_counterexample :
    (handleMessage false wGlobalJoined 0 (some (chatBare "x1"))).2 =
      [(2, OutMsg.chat "x1" "Player" "" "global")] ∧
    wGlobalJoined.clients.find? (fun s => s.sid == 2) =
      some { sid := 2, _room := some "global", _clientId := some "g1",
             isAlive := true, readyStateOpen := true } ∧
    wGlobalJoined.clients.find? (fun s => s.sid == 1) = some (mkSession 1) ∧
    wGlobalJoined.clients.find? (fun s => s.sid == 0) = some (mkSession 0) := by
  decide

/-- C8 (amended): the resolved room is the sending session's bound
room, else the event's own `room` field, else the literal string
`"global"`; a `chat` from a session with no binding and no `room` field
is therefore delivered exactly to the open sessions whose bound room is
the string `"global"` (i.e. sessions that explicitly joined the room
named `"global"`), and never to any unbound session — including the
sender itself. -/
theorem fallback_resolution (sf : Bool) (w : World) (sid : Nat) (ws : Session) (data : Data)
    (q : Nat × OutMsg) (cl : Session) (m2 : OutMsg)
    (hfind : w.clients.find? (fun s => s.sid == sid) = some ws)
    (htype : data.type = some "chat") (hcid : jstruthy data.clientId = true)
    (hnoroom : jstruthy data.room = false) (hunbound : ws._room = none)
    (hsids : (w.clients.map Session.sid).Nodup)
    (hcl : cl ∈ w.clients) (hclroom : cl._room = none) :
    resolveRoom ws._room data.room = "global" ∧
    (q ∈ (handleMessage sf w sid (some data)).2 →
      ∃ c ∈ w.clients, c.sid = q.1 ∧ c._room = some "global" ∧ c.readyStateOpen = true) ∧
    (cl.sid, m2) ∉ (handleMessage sf w sid (some data)).2 := by
  have hres : resolveRoom ws._room data.room = "global" := by
    rw [hunbound]
    exact resolveRoom_unbound_noroom data.room hnoroom
  refine ⟨hres, ?_, ?_⟩
  · intro hq
    rw [handleMessage_chat_eq sf w sid ws data hfind htype hcid, hres] at hq
    rcases (mem_scopedFanout _ _ _ _).mp hq with ⟨c, hc, hopen, hroom, heq⟩
    exact ⟨c, hc, (congrArg Prod.fst heq).symm, hroom, hopen⟩
  · intro hmem
    rw [handleMessage_chat_eq sf w sid ws data hfind htype hcid, hres] at hmem
    have hrec := scopedFanout_recipient w.clients "global" _ cl m2 hsids hcl hmem
    rw [hclroom] at hrec
    exact Option.noConfusion hrec.2

/-- Witness for the amended C8 in `wGlobalJoined`: the chat from unbound
socket 0 resolves to `"global"`, every delivery goes to a session bound
to `"global"`, and the unbound socket 1 receives nothing. -/
theorem fallback_resolution_witness :
    resolveRoom (mkSession 0)._room (chatBare "x1").room = "global" ∧
    (((2 : Nat), OutMsg.chat "x1" "Player" "" "global") ∈
        (handleMessage false wGlobalJoined 0 (some (chatBare "x1"))).2 →
      ∃ c ∈ wGlobalJoined.clients,
        c.sid = ((2 : Nat), OutMsg.chat "x1" "Player" "" "global").1 ∧
        c._room = some "global" ∧ c.readyStateOpen = true) ∧
    ((mkSession 1).sid, OutMsg.chat "x1" "Player" "" "global") ∉
      (handleMessage false wGlobalJoined 0 (some (chatBare "x1"))).2 :=
  fallback_resolution false wGlobalJoined 0 (mkSession 0) (chatBare "x1")
    ((2 : Nat), OutMsg.chat "x1" "Player" "" "global") (mkSession 1)
    (OutMsg.chat "x1" "Player" "" "global")
    (by decide) rfl (by decide) rfl rfl (by decide) (by decide) rfl


theorem joinClients_binding (w : World) (sid : Nat) (room clientId : String) (s2 : Session)
    (hs2 : s2 ∈ w.clients.map (fun s =>
      if s.sid == sid then { s with _room := some room, _clientId := some clientId } else s))
    (hs2sid : s2.sid = sid) :
    s2._room = some room ∧ s2._clientId = some clientId := by
  rcases List.mem_map.mp hs2 with ⟨s0, hs0, hmap⟩
  by_cases hb : (s0.sid == sid) = true
  · rw [if_pos hb] at hmap
    rw [← hmap]
    exact ⟨rfl, rfl⟩
  · rw [if_neg hb] at hmap
    refine absurd ?_ hb
    rw [hmap, hs2sid]
    simp

/-- C4: Join effect: a well-formed `join(room, clientId)` adds the
client to the room's member set, rebinds the sender session to
`(room, clientId)`, persists the recomputed count, and broadcasts
`presence_count{room, count}` to every OPEN session regardless of its
room. -/
theorem join_effect (sf : Bool) (w : World) (sid : Nat) (ws : Session) (data : Data)
    (room clientId : String) (c2 s2 : Session)
    (hfind : w.clients.find? (fun s => s.sid == sid) = some ws)
    (htype : data.type = some "join") (hroom : data.room = some room)
    (hcid : data.clientId = some clientId) (hrne : room ≠ "") (hcne : clientId ≠ "")
    (hsf : sf = false) (hmongo : w.mongoColl = true)
    (hc2 : c2 ∈ w.clients) (hc2open : c2.readyStateOpen = true)
    (hs2 : s2 ∈ (handleMessage sf w sid (some data)).1.clients) (hs2sid : s2.sid = sid) :
    clientId ∈ getRoom (handleMessage sf w sid (some data)).1.rooms room ∧
    (c2.sid, OutMsg.presence_count room
        (roomCount (handleMessage sf w sid (some data)).1.rooms room))
      ∈ (handleMessage sf w sid (some data)).2 ∧
    s2._room = some room ∧ s2._clientId = some clientId ∧
    storeLookup (handleMessage sf w sid (some data)).1.store room =
      some (roomCount (handleMessage sf w sid (some data)).1.rooms room) := by
  have heq := handleMessage_join_eq sf w sid ws data room clientId hfind htype hroom hcid hrne hcne
  rw [heq] at hs2 ⊢
  obtain ⟨hbind1, hbind2⟩ := joinClients_binding w sid room clientId s2 hs2 hs2sid
  refine ⟨?_, ?_, hbind1, hbind2, ?_⟩
  · rw [getRoom_addMember_self]
    exact mem_setAdd_self _ _
  · exact (mem_broadcastRoomCount _ _ _ _).mpr ⟨c2, hc2, hc2open, rfl⟩
  · subst hsf
    rw [hmongo]
    have hpc : persistCount false true (addMember w.rooms room clientId) w.store room =
        upsertCount w.store room (roomCount (addMember w.rooms room clientId) room) := by
      simp [persistCount]
    rw [hpc, storeLookup_upsertCount]

/-- Witness for C4 (scenario A): the first join to the empty `"lobby"`
makes every connected socket — including socket 2, which is in no room —
receive `presence_count` for `"lobby"` with the new count, which is 1. -/
theorem join_effect_witness :
    ("x1" ∈ getRoom (handleMessage false w3 0 (some (joinData "lobby" "x1"))).1.rooms "lobby" ∧
      ((mkSession 2).sid, OutMsg.presence_count "lobby"
          (roomCount (handleMessage false w3 0 (some (joinData "lobby" "x1"))).1.rooms "lobby"))
        ∈ (handleMessage false w3 0 (some (joinData "lobby" "x1"))).2 ∧
      sesLobby._room = some "lobby" ∧ sesLobby._clientId = some "x1" ∧
      storeLookup (handleMessage false w3 0 (some (joinData "lobby" "x1"))).1.store "lobby" =
        some (roomCount (handleMessage false w3 0 (some (joinData "lobby" "x1"))).1.rooms
          "lobby")) ∧
    roomCount (handleMessage false w3 0 (some (joinData "lobby" "x1"))).1.rooms "lobby" = 1 :=
  ⟨join_effect false w3 0 (mkSession 0) (joinData "lobby" "x1") "lobby" "x1"
      (mkSession 2) sesLobby (by decide) rfl rfl rfl (by decide) (by decide) rfl rfl
      (by decide) rfl (by decide) rfl,
   by decide⟩

/-- Counterexample for C7: in `wAB`, reached by socket 0 joining `"A"`
and then `"B"` as the same client `"c"` with no intervening leave, the
client is simultaneously a member of both rooms' member sets while its
session binding reads `"B"`. -/
theorem single_room_counterexample :
    ("c" ∈ getRoom wAB.rooms "A") ∧ ("c" ∈ getRoom wAB.rooms "B") ∧ ("A" ≠ "B") ∧
    wAB.clients.find? (fun s => s.sid == 0) =
      some { sid := 0, _room := some "B", _clientId := some "c",
             isAlive := true, readyStateOpen := true } := by
  decide

/-- C7 (amended): each session records at most one bound room at a time —
a later join overwrites the binding with the single new room — but the
member sets are not exclusive: joining room `B` leaves any membership
the client already has in a different room `A` untouched, so the client
stays in `A`'s member set while also entering `B`'s. -/
theorem join_rebind (sf : Bool) (w : World) (sid : Nat) (ws : Session) (data : Data)
    (room clientId A : String) (s2 : Session)
    (hfind : w.clients.find? (fun s => s.sid == sid) = some ws)
    (htype : data.type = some "join") (hroom : data.room = some room)
    (hcid : data.clientId = some clientId) (hrne : room ≠ "") (hcne : clientId ≠ "")
    (hA : A ≠ room)
    (hs2 : s2 ∈ (handleMessage sf w sid (some data)).1.clients) (hs2sid : s2.sid = sid) :
    getRoom (handleMessage sf w sid (some data)).1.rooms A = getRoom w.rooms A ∧
    clientId ∈ getRoom (handleMessage sf w sid (some data)).1.rooms room ∧
    s2._room = some room ∧ s2._clientId = some clientId := by
  have heq := handleMessage_join_eq sf w sid ws data room clientId hfind htype hroom hcid hrne hcne
  rw [heq] at hs2 ⊢
  obtain ⟨hbind1, hbind2⟩ := joinClients_binding w sid room clientId s2 hs2 hs2sid
  refine ⟨getRoom_addMember_ne w.rooms room A clientId hA, ?_, hbind1, hbind2⟩
  rw [getRoom_addMember_self]
  exact mem_setAdd_self _ _

/-- Witness for the amended C7: socket 0, already a member of `"A"`,
joins `"B"`: its binding becomes the single room `"B"`, it enters the
`"B"` member set, and its membership in `"A"` is unchanged. -/
theorem join_rebind_witness :
    getRoom (handleMessage false wA 0 (some (joinData "B" "c"))).1.rooms "A" =
      getRoom wA.rooms "A" ∧
    "c" ∈ getRoom (handleMessage false wA 0 (some (joinData "B" "c"))).1.rooms "B" ∧
    (Session.mk 0 (some "B") (some "c") true true)._room = some "B" ∧
    (Session.mk 0 (some "B") (some "c") true true)._clientId = some "c" :=
  join_rebind false wA 0 (Session.mk 0 (some "A") (some "c") true true)
    (joinData "B" "c") "B" "c" "A" (Session.mk 0 (some "B") (some "c") true true)
    (by decide) rfl rfl rfl (by decide) (by decide) (by decide) (by decide) rfl


/-- Counterexample for C5: in `wAfterLeave` the last-recorded binding of
socket 0 is `("lobby", "x1")` (it previously joined `"lobby"`), but an
explicit leave already removed the member; closing the socket leaves the
count at 0 — it does not decrease by exactly 1 — while a `presence_count`
broadcast is still emitted. -/
theorem cleanup_counterexample :
    wAfterLeave.clients.find? (fun s => s.sid == 0) =
      some { sid := 0, _room := some "lobby", _clientId := some "x1",
             isAlive := true, readyStateOpen := true } ∧
    roomCount wAfterLeave.rooms "lobby" = 0 ∧
    roomCount (handleClose false wAfterLeave 0).1.rooms "lobby" = 0 ∧
    (handleClose false wAfterLeave 0).2 =
      [(1, OutMsg.presence_count "lobby" 0), (2, OutMsg.presence_count "lobby" 0)] ∧
    ¬ (roomCount (handleClose false wAfterLeave 0).1.rooms "lobby" + 1 =
        roomCount wAfterLeave.rooms "lobby") := by
  decide

/-- C5 (amended): closing (or sweeper-evicting) a session has exactly the
effect of an explicit leave on its last-recorded binding `(r, c)`: `c` is
removed from `r`'s member set and a `presence_count` broadcast with the
recomputed count goes to the remaining open sockets; the count decreases
by exactly 1 when `c` is still a member of `r` at close time, and is
unchanged (though the broadcast still occurs) when it is not; a session
that never joined anything closes with no registry change and no
broadcast; eviction of a dead socket by the sweeper takes the same close
path. -/
theorem cleanup_on_disconnect (sf : Bool) (w : World) (sid : Nat) (ws : Session)
    (r c : String) (c2 : Session)
    (hfind : w.clients.find? (fun s => s.sid == sid) = some ws) :
    (ws._room = some r → ws._clientId = some c → r ≠ "" → c ≠ "" →
      ((handleClose sf w sid).1.rooms = removeMember w.rooms r c ∧
       ((getRoom w.rooms r).Nodup → c ∈ getRoom w.rooms r →
         roomCount (handleClose sf w sid).1.rooms r + 1 = roomCount w.rooms r) ∧
       (c ∉ getRoom w.rooms r →
         roomCount (handleClose sf w sid).1.rooms r = roomCount w.rooms r) ∧
       (c2 ∈ w.clients → c2.sid ≠ sid → c2.readyStateOpen = true →
         (c2.sid, OutMsg.presence_count r (roomCount (handleClose sf w sid).1.rooms r))
           ∈ (handleClose sf w sid).2))) ∧
    (ws._room = none →
      (handleClose sf w sid).1.rooms = w.rooms ∧ (handleClose sf w sid).2 = []) ∧
    (ws.isAlive = false → sweepOne sf w sid = handleClose sf w sid) := by
  refine ⟨?_, ?_, ?_⟩
  · intro hr hc hrne hcne
    have heq := handleClose_bound_eq sf w sid ws r c hfind hr hc hrne hcne
    rw [heq]
    refine ⟨rfl, ?_, ?_, ?_⟩
    · intro hnd hmem
      show roomCount (removeMember w.rooms r c) r + 1 = roomCount w.rooms r
      rw [roomCount, roomCount, getRoom_removeMember_self]
      exact setDelete_length _ _ hnd hmem
    · intro habs
      show roomCount (removeMember w.rooms r c) r = roomCount w.rooms r
      rw [roomCount, roomCount, getRoom_removeMember_self, setDelete_not_mem _ _ habs]
    · intro hc2 hc2ne hc2open
      refine (mem_broadcastRoomCount _ _ _ _).mpr ⟨c2, ?_, hc2open, rfl⟩
      refine List.mem_filter.mpr ⟨hc2, ?_⟩
      simp [hc2ne]
  · intro hnone
    have hnb : ¬ (jstruthy ws._room ∧ jstruthy ws._clientId) := by
      rw [hnone]
      simp [jstruthy]
    rw [handleClose_unbound_eq sf w sid ws hfind hnb]
    exact ⟨rfl, rfl⟩
  · intro hdead
    unfold sweepOne
    rw [hfind]
    simp [hdead]

/-- Witness for the amended C5 in `wLobbyArena`: closing socket 0 (bound
to `("lobby", "x1")`, still a member) removes it, drops the count by one,
and socket 1 — still open — receives the broadcast; the unbound and
sweeper conjuncts are the two vacuous implications of this instance. -/
theorem cleanup_on_disconnect_witness :
    ((sesLobby._room = some "lobby" → sesLobby._clientId = some "x1" →
        "lobby" ≠ "" → "x1" ≠ "" →
      ((handleClose false wLobbyArena 0).1.rooms = removeMember wLobbyArena.rooms "lobby" "x1" ∧
       ((getRoom wLobbyArena.rooms "lobby").Nodup → "x1" ∈ getRoom wLobbyArena.rooms "lobby" →
         roomCount (handleClose false wLobbyArena 0).1.rooms "lobby" + 1 =
           roomCount wLobbyArena.rooms "lobby") ∧
       ("x1" ∉ getRoom wLobbyArena.rooms "lobby" →
         roomCount (handleClose false wLobbyArena 0).1.rooms "lobby" =
           roomCount wLobbyArena.rooms "lobby") ∧
       (sesArena ∈ wLobbyArena.clients → sesArena.sid ≠ 0 → sesArena.readyStateOpen = true →
         (sesArena.sid, OutMsg.presence_count "lobby"
             (roomCount (handleClose false wLobbyArena 0).1.rooms "lobby"))
           ∈ (handleClose false wLobbyArena 0).2))) ∧
     (sesLobby._room = none →
       (handleClose false wLobbyArena 0).1.rooms = wLobbyArena.rooms ∧
       (handleClose false wLobbyArena 0).2 = []) ∧
     (sesLobby.isAlive = false → sweepOne false wLobbyArena 0 = handleClose false wLobbyArena 0)) ∧
    roomCount wLobbyArena.rooms "lobby" = 1 ∧
    roomCount (handleClose false wLobbyArena 0).1.rooms "lobby" = 0 :=
  ⟨cleanup_on_disconnect false wLobbyArena 0 sesLobby "lobby" "x1" sesArena (by decide),
   by decide, by decide⟩

/-- Counterexample for C6: a `chat` that lacks the (per the claim,
required) `message` field is not dropped: in `wTwoLobby` it is relayed to
both lobby members with the message defaulted to the empty string. -/
theorem malformed_drop_counterexample :
    (chatBare "x1").message = none ∧
    (handleMessage false wTwoLobby 0 (some (chatBare "x1"))).2 =
      [(0, OutMsg.chat "x1" "Player" "" "lobby"),
       (1, OutMsg.chat "x1" "Player" "" "lobby")] := by
  decide

/-- C6 (amended): unparseable JSON, a missing/empty/unrecognized `type`,
`join`/`leave` lacking `room` or `clientId`, and `chat`/`presence_update`
lacking `clientId` all cause no state change and no output at all; but
`chat` requires only `clientId` — a `chat` without `message` is still
relayed, with the message defaulted to the empty string. -/
theorem malformed_input_drop (sf : Bool) (w : World) (sid : Nat) (msg : Option Data)
    (ws : Session) (data : Data)
    (hfind : w.clients.find? (fun s => s.sid == sid) = some ws)
    (hdrop : droppedInput msg)
    (htype : data.type = some "chat") (hcid : jstruthy data.clientId = true)
    (hnomsg : data.message = none) :
    handleMessage sf w sid msg = (w, []) ∧
    (handleMessage sf w sid (some data)).2 =
      scopedFanout w.clients (resolveRoom ws._room data.room)
        (OutMsg.chat (data.clientId.getD "") (jsOrD data.username "Player") ""
          (resolveRoom ws._room data.room)) := by
  refine ⟨handleMessage_dropped_eq sf w sid msg hdrop, ?_⟩
  rw [handleMessage_chat_eq sf w sid ws data hfind htype hcid, hnomsg]
  simp [jsOrD, jsOr, jstruthy]

/-- Witness for the amended C6 (scenario E plus the chat default): a bare
`{"type":"join"}` is dropped with no effect, while a `chat` with only a
`clientId` is relayed with an empty message. -/
theorem malformed_input_drop_witness :
    handleMessage false wTwoLobby 0 (some joinBare) = (wTwoLobby, []) ∧
    (handleMessage false wTwoLobby 0 (some (chatBare "x1"))).2 =
      scopedFanout wTwoLobby.clients (resolveRoom sesLobby._room (chatBare "x1").room)
        (OutMsg.chat ((chatBare "x1").clientId.getD "")
          (jsOrD (chatBare "x1").username "Player") ""
          (resolveRoom sesLobby._room (chatBare "x1").room)) :=
  malformed_input_drop false wTwoLobby 0 (some joinBare) sesLobby (chatBare "x1")
    (by decide)
    (Or.inr (Or.inr (Or.inl ⟨Or.inl rfl, by decide⟩)))
    rfl (by decide) rfl

end Presence
